import Mathlib

/-!
# NFT-Collection: `src/context/index.js`

The module holds one module-level variable `content` with the accessors
`getContent` and `setContent`, a React context `x`, and the component
`Provider`, which keeps three `useState` cells and publishes the three values
together with their setters as the value of `x.Provider`.

The embedding is by explicit state passing.  A `World` is the mutable state the
module can touch: the module-level variable and the hook cells of the mounted
`Provider` instance.  JavaScript functions become computations in the state
monad over `World`.
-/

namespace NFTCollection

/-- JavaScript values that can be stored in the cells of this module.  The
language is untyped, so a cell can hold any of them.  Function values are left
out: the state setter of React treats a function argument as an updater, and
none of the properties below passes one. -/
inductive Value where
  | undefined
  | null
  | bool (b : Bool)
  | str (s : String)
  | arr (xs : List Value)
  | obj (id : Nat)

/-- Elements of an array value; every other value has no elements. -/
def Value.elems : Value → List Value
  | .arr xs => xs
  | _ => []

/-- Mutable state reachable from the module: the variable `content` declared by
`let content = "collection"`, and the state cells React keeps for the mounted
`Provider` instance, one per `useState` call, addressed by call order.  A cell
is `none` until the first render of the component has initialised it. -/
structure World where
  content : Value
  hooks : Nat → Option Value

/-- Side-effecting JavaScript code: a state transformer over `World`. -/
abbrev JS := StateM World

/-- Result value of running `prog` from `w`. -/
def JS.result {α : Type} (prog : JS α) (w : World) : α := (StateT.run prog w).1

/-- State left behind by running `prog` from `w`. -/
def JS.after {α : Type} (prog : JS α) (w : World) : World := (StateT.run prog w).2

/-- State right after the module has been evaluated: line 3 has assigned
`"collection"` to `content`, and no component has been rendered yet. -/
def World.init : World :=
  { content := .str "collection", hooks := fun _ => none }

/-- Source: `export const getContent = () => { return content; }`. -/
def getContent : JS Value := do
  return (← get).content

/-- Source: `export const setContent = (str) => { content = str; }`. -/
def setContent (str : Value) : JS Unit :=
  modify fun w => { w with content := str }

/-- State setter returned by `useState` for the cell `slot`: called with a
plain value it replaces the stored state by that value. -/
def setState (slot : Nat) (v : Value) : JS Unit :=
  modify fun w => { w with hooks := Function.update w.hooks slot (some v) }

/-- React `useState(initialState)` for the cell `slot`: on the first render the
cell is initialised with `initialState`; on every render the current state is
returned together with the setter of the cell. -/
def useState (slot : Nat) (initialState : Value) : JS (Value × (Value → JS Unit)) := do
  let w ← get
  match w.hooks slot with
  | some v => return (v, setState slot)
  | none =>
    set { w with hooks := Function.update w.hooks slot (some initialState) }
    return (initialState, setState slot)

/-- Object literal `{ content, setContent, nfts, setNfts, activeNfts,
setActiveNfts }` passed as `value` to `x.Provider`. -/
structure Bundle where
  content : Value
  setContent : Value → JS Unit
  nfts : Value
  setNfts : Value → JS Unit
  activeNfts : Value
  setActiveNfts : Value → JS Unit

/-- One render of the component `Provider`: three `useState` calls, in source
order, then the bundle handed to `x.Provider`.  As in the source, the local
names `content` and `setContent` shadow the module-level ones.  The children
are rendered by React below the context provider and do not enter the bundle. -/
def Provider : JS Bundle := do
  let (content, setContent) ← useState 0 (.str "collection")
  let (nfts, setNfts) ← useState 1 (.arr [])
  let (activeNfts, setActiveNfts) ← useState 2 (.arr [])
  return { content, setContent, nfts, setNfts, activeNfts, setActiveNfts }

/-- Hook cells after a render, given the cells `h` before it: each of the three
cells keeps its state if it has one and takes its initial state otherwise. -/
def mountCells (h : Nat → Option Value) : Nat → Option Value :=
  Function.update
    (Function.update
      (Function.update h 0 (some ((h 0).getD (.str "collection"))))
      1 (some ((h 1).getD (.arr []))))
    2 (some ((h 2).getD (.arr [])))

/-- State in which the module-level variable holds `c` and the `Provider` has
not been rendered yet, so that the next render constructs it. -/
def World.unmounted (c : Value) : World :=
  { content := c, hooks := fun _ => none }

/-- Calls `getContent()` `n` times in a row, with nothing in between, and
collects the returned values in call order. -/
def getContentTimes : Nat → JS (List Value)
  | 0 => return []
  | n + 1 => do
    let v ← getContent
    let vs ← getContentTimes n
    return v :: vs

/-- States reachable from module initialisation through what the module exposes:
rendering `Provider`, the module-level `setContent`, and the three setters of a
published bundle. -/
inductive Reachable : World → Prop
  | init : Reachable World.init
  | render {w : World} : Reachable w → Reachable (JS.after Provider w)
  | moduleSetContent {w : World} (v : Value) :
      Reachable w → Reachable (JS.after (setContent v) w)
  | ctxSetContent {w : World} (v : Value) :
      Reachable w → Reachable (JS.after (do let b ← Provider; b.setContent v) w)
  | ctxSetNfts {w : World} (v : Value) :
      Reachable w → Reachable (JS.after (do let b ← Provider; b.setNfts v) w)
  | ctxSetActiveNfts {w : World} (v : Value) :
      Reachable w → Reachable (JS.after (do let b ← Provider; b.setActiveNfts v) w)

/-- Candidate invariant "activeNfts is a subset of nfts": every element of the
published `activeNfts` is an element of the published `nfts`. -/
def ActiveWithinNfts (w : World) : Prop :=
  ∀ a ∈ (JS.result Provider w).activeNfts.elems, a ∈ (JS.result Provider w).nfts.elems

end NFTCollection

namespace NFTCollection

/-! ## Running programs -/

theorem JS.result_bind {α β : Type} (p : JS α) (f : α → JS β) (w : World) :
    JS.result (p >>= f) w = JS.result (f (JS.result p w)) (JS.after p w) := rfl

theorem JS.after_bind {α β : Type} (p : JS α) (f : α → JS β) (w : World) :
    JS.after (p >>= f) w = JS.after (f (JS.result p w)) (JS.after p w) := rfl

theorem result_getContent (w : World) : JS.result getContent w = w.content := rfl

theorem after_getContent (w : World) : JS.after getContent w = w := rfl

theorem after_setContent (v : Value) (w : World) :
    JS.after (setContent v) w = { w with content := v } := rfl

theorem after_setState (i : Nat) (v : Value) (w : World) :
    JS.after (setState i v) w = { w with hooks := Function.update w.hooks i (some v) } := rfl

/-! ## One render of `Provider` -/

/-- One `useState` call returns the current state of its cell, or the initial
state when the cell is still empty, and leaves the cell holding that value. -/
theorem useState_run (i : Nat) (init : Value) (w : World) :
    StateT.run (useState i init) w =
      (((w.hooks i).getD init, setState i),
        { w with hooks := Function.update w.hooks i (some ((w.hooks i).getD init)) }) := by
  cases h : w.hooks i with
  | none => simp [useState, h]
  | some v =>
    have e : Function.update w.hooks i (some v) = w.hooks := by
      rw [← h]; exact Function.update_eq_self i w.hooks
    simp [useState, h, e]

/-- Bundle published by one render and the state it leaves, in terms of the
hook cells before it. -/
theorem Provider_run (w : World) :
    StateT.run Provider w =
      ({ content := (w.hooks 0).getD (.str "collection"), setContent := setState 0,
         nfts := (w.hooks 1).getD (.arr []), setNfts := setState 1,
         activeNfts := (w.hooks 2).getD (.arr []), setActiveNfts := setState 2 },
       { w with hooks := mountCells w.hooks }) := by
  simp [Provider, useState_run, mountCells]

theorem Provider_result (w : World) :
    JS.result Provider w =
      { content := (w.hooks 0).getD (.str "collection"), setContent := setState 0,
        nfts := (w.hooks 1).getD (.arr []), setNfts := setState 1,
        activeNfts := (w.hooks 2).getD (.arr []), setActiveNfts := setState 2 } := by
  simp [JS.result, Provider_run]

theorem Provider_after (w : World) :
    JS.after Provider w = { w with hooks := mountCells w.hooks } := by
  simp [JS.after, Provider_run]

theorem mountCells_zero (h : Nat → Option Value) :
    mountCells h 0 = some ((h 0).getD (.str "collection")) := by
  simp [mountCells, Function.update]

theorem mountCells_one (h : Nat → Option Value) :
    mountCells h 1 = some ((h 1).getD (.arr [])) := by
  simp [mountCells, Function.update]

theorem mountCells_two (h : Nat → Option Value) :
    mountCells h 2 = some ((h 2).getD (.arr [])) := by
  simp [mountCells, Function.update]

/-! ## The module-level cell -/

/-- C1: for every string `s` and every prior state, `setContent(s)` followed by
`getContent()` returns exactly `s`. -/
theorem getContent_after_setContent (s : String) (w : World) :
    JS.result (do setContent (.str s); getContent) w = .str s := rfl

/-- C2: in the state right after module initialisation, before any call of the
module-level `setContent`, `getContent()` returns `"collection"`. -/
theorem getContent_initial : JS.result getContent World.init = .str "collection" := rfl

/-- C8: `getContent()` has no side effects: it returns the cell and leaves the
whole state (the cell and the provider cells) as it was, so `n` consecutive
calls leave the state unchanged and all return the same value. -/
theorem getContent_no_side_effect (w : World) :
    JS.after getContent w = w ∧ JS.result getContent w = w.content ∧
      ∀ n : Nat, JS.after (getContentTimes n) w = w ∧
        JS.result (getContentTimes n) w = List.replicate n w.content := by
  refine ⟨rfl, rfl, fun n => ?_⟩
  induction n with
  | zero => exact ⟨rfl, rfl⟩
  | succ n ih =>
    obtain ⟨h1, h2⟩ := ih
    constructor
    · show JS.after (getContentTimes n) w = w
      exact h1
    · show w.content :: JS.result (getContentTimes n) w = _
      rw [h2]; rfl

/-! ## The provider -/

/-- C4: a newly constructed `Provider` publishes `content = "collection"`,
`nfts = []` and `activeNfts = []`, whatever the module-level cell holds. -/
theorem Provider_initial_bundle (c : Value) :
    (JS.result Provider (World.unmounted c)).content = .str "collection" ∧
      (JS.result Provider (World.unmounted c)).nfts = .arr [] ∧
      (JS.result Provider (World.unmounted c)).activeNfts = .arr [] :=
  ⟨rfl, rfl, rfl⟩

/-- C3: the module-level cell and the provider state are independent in both
directions.  The module-level `setContent(s)` leaves every provider cell, hence
the published `content`, `nfts` and `activeNfts`, unchanged; after
`setContent("x")` a freshly constructed provider still publishes
`"collection"`; and the `setContent` of the bundle leaves the value returned by
`getContent()` unchanged. -/
theorem module_cell_provider_independent :
    (∀ (s : String) (w : World),
      (JS.after (setContent (.str s)) w).hooks = w.hooks ∧
      (JS.result (do setContent (.str s); Provider) w).content = (JS.result Provider w).content ∧
      (JS.result (do setContent (.str s); Provider) w).nfts = (JS.result Provider w).nfts ∧
      (JS.result (do setContent (.str s); Provider) w).activeNfts
        = (JS.result Provider w).activeNfts) ∧
    (∀ c : Value,
      (JS.result (do setContent (.str "x"); Provider) (World.unmounted c)).content
        = .str "collection") ∧
    (∀ (s : String) (w : World),
      JS.result (do let b ← Provider; b.setContent (.str s); getContent) w
        = JS.result getContent w) := by
  refine ⟨fun s w => ⟨rfl, ?_, ?_, ?_⟩, fun c => rfl, fun s w => ?_⟩
  · simp [JS.result_bind, Provider_result, after_setContent]
  · simp [JS.result_bind, Provider_result, after_setContent]
  · simp [JS.result_bind, Provider_result, after_setContent]
  · simp [JS.result_bind, JS.after_bind, Provider_result, Provider_after, after_setState,
      result_getContent]

/-- C5: for every provider state and every sequence `xs`, after the `setNfts(xs)`
of the bundle the next read of `nfts` is `xs` exactly (same elements in the same
order, same length), while `activeNfts` and `content` read as before; this
holds in particular for a two-element sequence `[a, b]`. -/
theorem setNfts_read_back (w : World) (xs : List Value) :
    (JS.result (do let b ← Provider; b.setNfts (.arr xs); Provider) w).nfts = .arr xs ∧
    (JS.result (do let b ← Provider; b.setNfts (.arr xs); Provider) w).nfts.elems = xs ∧
    (JS.result (do let b ← Provider; b.setNfts (.arr xs); Provider) w).nfts.elems.length
      = xs.length ∧
    (JS.result (do let b ← Provider; b.setNfts (.arr xs); Provider) w).activeNfts
      = (JS.result Provider w).activeNfts ∧
    (JS.result (do let b ← Provider; b.setNfts (.arr xs); Provider) w).content
      = (JS.result Provider w).content ∧
    (∀ a b : Value,
      (JS.result (do let p ← Provider; p.setNfts (.arr [a, b]); Provider) w).nfts
        = .arr [a, b]) := by
  have key : ∀ ys : List Value,
      JS.result (do let b ← Provider; b.setNfts (.arr ys); Provider) w =
        { content := (w.hooks 0).getD (.str "collection"), setContent := setState 0,
          nfts := .arr ys, setNfts := setState 1,
          activeNfts := (w.hooks 2).getD (.arr []), setActiveNfts := setState 2 } := by
    intro ys
    simp [JS.result_bind, JS.after_bind, Provider_result, Provider_after, after_setState,
      mountCells, Function.update]
  refine ⟨?_, ?_, ?_, ?_, ?_, fun a b => ?_⟩ <;> simp [key, Provider_result, Value.elems]

/-- C6: the scenario of the specification as a trace.  From a newly constructed
provider `content` reads `"collection"`; after the `setContent("gallery")` of
the bundle it reads `"gallery"`; after `setNfts(["nft1","nft2"])`, `nfts` reads
`["nft1","nft2"]`, `content` still reads `"gallery"` and `activeNfts` is still
empty. -/
theorem provider_scenario (c : Value) :
    JS.result
      (do
        let b0 ← Provider
        b0.setContent (.str "gallery")
        let b1 ← Provider
        b1.setNfts (.arr [.str "nft1", .str "nft2"])
        let b2 ← Provider
        return (b0.content, b1.content, b2.nfts, b2.content, b2.activeNfts))
      (World.unmounted c)
    = (.str "collection", .str "gallery", .arr [.str "nft1", .str "nft2"], .str "gallery",
        .arr []) := rfl

/-- C7: each of the three setters of the bundle replaces its value wholesale.
Calling it with `v1` and then with `v2` leaves the same state as calling it with
`v2` alone, and the next read returns `v2`: after `setNfts(xs)` then
`setNfts(ys)` the next read of `nfts` is `ys`, after `setContent(v1)` then
`setContent(v2)` the next read of `content` is `v2`, and after
`setActiveNfts(xs)` then `setActiveNfts(ys)` the next read of `activeNfts` is
`ys`. -/
theorem setters_replace_wholesale (w : World) :
    (∀ v1 v2 : String,
      JS.after (do let b ← Provider; b.setContent (.str v1); b.setContent (.str v2)) w
        = JS.after (do let b ← Provider; b.setContent (.str v2)) w) ∧
    (∀ xs ys : List Value,
      JS.after (do let b ← Provider; b.setNfts (.arr xs); b.setNfts (.arr ys)) w
        = JS.after (do let b ← Provider; b.setNfts (.arr ys)) w) ∧
    (∀ xs ys : List Value,
      JS.after (do let b ← Provider; b.setActiveNfts (.arr xs); b.setActiveNfts (.arr ys)) w
        = JS.after (do let b ← Provider; b.setActiveNfts (.arr ys)) w) ∧
    (∀ xs ys : List Value,
      (JS.result
          (do
            let b ← Provider
            b.setNfts (.arr xs)
            let b1 ← Provider
            b1.setNfts (.arr ys)
            Provider) w).nfts
        = .arr ys) ∧
    (∀ v1 v2 : String,
      (JS.result
          (do
            let b ← Provider
            b.setContent (.str v1)
            let b1 ← Provider
            b1.setContent (.str v2)
            Provider) w).content
        = .str v2) ∧
    (∀ xs ys : List Value,
      (JS.result
          (do
            let b ← Provider
            b.setActiveNfts (.arr xs)
            let b1 ← Provider
            b1.setActiveNfts (.arr ys)
            Provider) w).activeNfts
        = .arr ys) := by
  refine ⟨fun v1 v2 => ?_, fun xs ys => ?_, fun xs ys => ?_, fun xs ys => ?_,
    fun v1 v2 => ?_, fun xs ys => ?_⟩
  · simp [JS.after_bind, Provider_result, Provider_after, after_setState]
  · simp [JS.after_bind, Provider_result, Provider_after, after_setState]
  · simp [JS.after_bind, Provider_result, Provider_after, after_setState]
  · simp [JS.result_bind, JS.after_bind, Provider_result, Provider_after, after_setState]
  · simp [JS.result_bind, JS.after_bind, Provider_result, Provider_after, after_setState,
      mountCells, Function.update]
  · simp [JS.result_bind, JS.after_bind, Provider_result, Provider_after, after_setState,
      mountCells, Function.update]

/-- C9: no invariant ties `activeNfts` to `nfts`.  For every item `a`, calling
`setActiveNfts([a])` on a newly constructed provider reaches a state that
publishes `activeNfts = [a]` and `nfts = []`, so `a` is in `activeNfts` and not
in `nfts`; the subset property holds before that call and fails after it, so
the setters do not preserve it. -/
theorem activeNfts_not_tied_to_nfts :
    (∀ a : Value, ∃ w : World, Reachable w ∧
      (JS.result Provider w).activeNfts = .arr [a] ∧
      (JS.result Provider w).nfts = .arr [] ∧
      a ∈ (JS.result Provider w).activeNfts.elems ∧
      a ∉ (JS.result Provider w).nfts.elems) ∧
    ActiveWithinNfts World.init ∧
    ¬ (∀ (w : World) (ys : List Value), ActiveWithinNfts w →
        ActiveWithinNfts (JS.after (do let b ← Provider; b.setActiveNfts (.arr ys)) w)) := by
  have fresh : ∀ a : Value,
      JS.result Provider (JS.after (do let b ← Provider; b.setActiveNfts (.arr [a])) World.init)
        = { content := .str "collection", setContent := setState 0,
            nfts := .arr [], setNfts := setState 1,
            activeNfts := .arr [a], setActiveNfts := setState 2 } := fun _ => rfl
  have start : ActiveWithinNfts World.init := by
    intro a ha
    simp [Provider_result, World.init, Value.elems] at ha
  refine ⟨fun a => ?_, start, fun h => ?_⟩
  · refine ⟨_, Reachable.ctxSetActiveNfts (.arr [a]) Reachable.init, ?_⟩
    simp [fresh, Value.elems]
  · have bad := h World.init [Value.null] start Value.null
    simp [ActiveWithinNfts, fresh, Value.elems] at bad

/-- C10: setters of different cells commute.  For every state, strings `s`, `t`
and sequences `xs`, `ys`, any two of the `setContent(s)`, `setNfts(xs)`,
`setActiveNfts(ys)` of the bundle and the module-level `setContent(t)` leave the
same final state in either order. -/
theorem setters_commute (w : World) (s t : String) (xs ys : List Value) :
    JS.after (do let b ← Provider; b.setContent (.str s); b.setNfts (.arr xs)) w
      = JS.after (do let b ← Provider; b.setNfts (.arr xs); b.setContent (.str s)) w ∧
    JS.after (do let b ← Provider; b.setContent (.str s); b.setActiveNfts (.arr ys)) w
      = JS.after (do let b ← Provider; b.setActiveNfts (.arr ys); b.setContent (.str s)) w ∧
    JS.after (do let b ← Provider; b.setNfts (.arr xs); b.setActiveNfts (.arr ys)) w
      = JS.after (do let b ← Provider; b.setActiveNfts (.arr ys); b.setNfts (.arr xs)) w ∧
    JS.after (do let b ← Provider; setContent (.str t); b.setContent (.str s)) w
      = JS.after (do let b ← Provider; b.setContent (.str s); setContent (.str t)) w ∧
    JS.after (do let b ← Provider; setContent (.str t); b.setNfts (.arr xs)) w
      = JS.after (do let b ← Provider; b.setNfts (.arr xs); setContent (.str t)) w ∧
    JS.after (do let b ← Provider; setContent (.str t); b.setActiveNfts (.arr ys)) w
      = JS.after (do let b ← Provider; b.setActiveNfts (.arr ys); setContent (.str t)) w := by
  have h01 : (0 : Nat) ≠ 1 := by decide
  have h02 : (0 : Nat) ≠ 2 := by decide
  have h12 : (1 : Nat) ≠ 2 := by decide
  refine ⟨?_, ?_, ?_, ?_, ?_, ?_⟩
  · simp [JS.after_bind, Provider_result, Provider_after, after_setState,
      Function.update_comm h01]
  · simp [JS.after_bind, Provider_result, Provider_after, after_setState,
      Function.update_comm h02]
  · simp [JS.after_bind, Provider_result, Provider_after, after_setState,
      Function.update_comm h12]
  · simp [JS.after_bind, Provider_result, Provider_after, after_setState, after_setContent]
  · simp [JS.after_bind, Provider_result, Provider_after, after_setState, after_setContent]
  · simp [JS.after_bind, Provider_result, Provider_after, after_setState, after_setContent]

end NFTCollection
